import Mathlib

/-!
Shallow embedding of `src/app/backend/routes/api_keys.py` (the single source
file of the repository): the FastAPI route handlers `test_api_key`
(POST /api/test-api-key) and `get_api_key_status` (GET /api/api-key-status).

The outbound HTTP call made by `test_api_key` is modelled by an `Outcome`
parameter: the behaviour of the awaited `httpx` request (a response with a
status code and body text, an `httpx.TimeoutException`, or an
`httpx.RequestError` with a message).  Everything downstream of that call is
translated line by line from the source.
-/

namespace ApiKeys

/-- HTTP method of an outbound probe request (`client.get` / `client.post`). -/
inductive Method where
  | GET
  | POST
deriving DecidableEq, Repr

/-- JSON values, enough to express the `test_data` body sent for anthropic
(lines 46-50 of the source). -/
inductive JsonVal where
  | str (s : String)
  | num (n : Nat)
  | arr (xs : List JsonVal)
  | obj (fields : List (String × JsonVal))

/-- An outbound HTTP request as constructed by the provider dispatch
(lines 28-91): method, URL, explicit headers passed to the client, and the
optional JSON body. -/
structure HttpRequest where
  method : Method
  url : String
  headers : List (String × String)
  body : Option JsonVal

/-- Request body of POST /api/test-api-key (class `TestApiKeyRequest`,
lines 9-12). -/
structure TestApiKeyRequest where
  provider : String
  apiKey : String
  testEndpoint : String

/-- A value stored in the `details` dict of a response: the source stores
either the integer `response.status_code` or an error string. -/
inductive DetailVal where
  | num (n : Nat)
  | str (s : String)
deriving DecidableEq, Repr

/-- Response body of POST /api/test-api-key (class `TestApiKeyResponse`,
lines 14-17).  The `details` dict is modelled as an association list in
insertion order. -/
structure TestApiKeyResponse where
  success : Bool
  message : String
  details : List (String × DetailVal)
deriving DecidableEq, Repr

/-- A `fastapi.HTTPException` (which subclasses starlette's `HTTPException`):
carries a status code and a `detail` string. -/
structure HTTPExceptionModel where
  status_code : Nat
  detail : String
deriving DecidableEq, Repr

/-- Python `str(e)` for a starlette/fastapi `HTTPException`: its `__str__`
returns `f"{self.status_code}: {self.detail}"`. -/
def httpExceptionStr (e : HTTPExceptionModel) : String :=
  toString e.status_code ++ ": " ++ e.detail

/-- The Python exceptions that can cross the `try` block of `test_api_key`
or escape `get_api_key_status`: the `HTTPException` raised at line 94, the
two `httpx` exception classes caught at lines 122 and 128, and the
`NameError` raised by evaluating the unbound name `os` at line 147. -/
inductive PyExc where
  | httpException (e : HTTPExceptionModel)
  | timeoutExc
  | requestError (msg : String)
  | nameError (n : String)
deriving DecidableEq, Repr

/-- Python `str(e)` for each modelled exception.  Only the `httpException`
case is ever reached by `test_api_key` (the two `httpx` cases are caught by
earlier `except` clauses); `str` of a `NameError` is
`name 'os' is not defined`. -/
def pyExcStr : PyExc → String
  | .httpException e => httpExceptionStr e
  | .timeoutExc => "timed out"
  | .requestError m => m
  | .nameError n => "name \x27" ++ n ++ "\x27 is not defined"

/-- Behaviour of the single awaited outbound HTTP call: the upstream answers
with a status code and body text, or the wait ends in
`httpx.TimeoutException`, or another `httpx.RequestError` is raised with
message `msg` (this is what `str(e)` yields at line 132). -/
inductive Outcome where
  | response (status_code : Nat) (text : String)
  | timeout
  | requestError (msg : String)
deriving DecidableEq, Repr

/-- Python `str.title()` restricted to the ASCII letters that occur in
provider identifiers: a letter directly after a letter is lowercased, any
other letter is uppercased, non-letters pass through (e.g.
`"openai".title() == "Openai"`). -/
def pyTitleChars : Bool → List Char → List Char
  | _, [] => []
  | prevCased, c :: cs =>
    if c.isAlpha then
      (if prevCased then c.toLower else c.toUpper) :: pyTitleChars true cs
    else
      c :: pyTitleChars false cs

/-- Python `str.title()` on a string (see `pyTitleChars`). -/
def pyTitle (s : String) : String :=
  String.mk (pyTitleChars false s.data)

/-- The JSON `test_data` body sent for the anthropic probe (lines 46-50). -/
def anthropic_test_data : JsonVal :=
  .obj [("model", .str "claude-3-haiku-20240307"),
        ("max_tokens", .num 1),
        ("messages", .arr [.obj [("role", .str "user"), ("content", .str "Hi")]])]

/-- The provider dispatch of `test_api_key` (lines 28-94): for each
recognized provider the method, URL, headers and body of the single
outbound request; `none` mirrors the `else` branch that raises
`HTTPException(400, ...)`.  For google (lines 77-81) the key is embedded in
the URL by f-string interpolation and no `headers` argument is passed. -/
def buildProbe (provider apiKey : String) : Option HttpRequest :=
  if provider = "openai" then
    some ⟨.GET, "https://api.openai.com/v1/models",
          [("Authorization", "Bearer " ++ apiKey),
           ("Content-Type", "application/json")], none⟩
  else if provider = "anthropic" then
    some ⟨.POST, "https://api.anthropic.com/v1/messages",
          [("x-api-key", apiKey),
           ("Content-Type", "application/json"),
           ("anthropic-version", "2023-06-01")], some anthropic_test_data⟩
  else if provider = "groq" then
    some ⟨.GET, "https://api.groq.com/openai/v1/models",
          [("Authorization", "Bearer " ++ apiKey),
           ("Content-Type", "application/json")], none⟩
  else if provider = "deepseek" then
    some ⟨.GET, "https://api.deepseek.com/v1/models",
          [("Authorization", "Bearer " ++ apiKey),
           ("Content-Type", "application/json")], none⟩
  else if provider = "google" then
    some ⟨.GET, "https://generativelanguage.googleapis.com/v1beta/models?key=" ++ apiKey,
          [], none⟩
  else if provider = "financial" then
    some ⟨.GET, "https://api.financialdatasets.ai/company/facts/?ticker=AAPL",
          [("X-API-KEY", apiKey)], none⟩
  else none

/-- The six provider identifiers recognized by the dispatch chain of
`test_api_key`, in source order. -/
def recognizedProvider (p : String) : Bool :=
  p = "openai" || p = "anthropic" || p = "groq" || p = "deepseek" ||
  p = "google" || p = "financial"

/-- The `timeout=10.0` argument of `httpx.AsyncClient` at line 24: the
total-wait timeout, in seconds, applied to every probe request. -/
def client_timeout_seconds : Nat := 10

/-- Response classification of `test_api_key` (lines 97-120), applied to the
status code and body text of the single probe response. -/
def classify (provider : String) (status_code : Nat) (text : String) :
    TestApiKeyResponse :=
  if status_code = 200 then
    ⟨true, pyTitle provider ++ " API key is valid",
     [("status_code", .num status_code)]⟩
  else if status_code = 401 then
    ⟨false, "Invalid API key for " ++ provider,
     [("status_code", .num status_code), ("error", .str "Unauthorized")]⟩
  else if status_code = 403 then
    ⟨false, "API key lacks required permissions for " ++ provider,
     [("status_code", .num status_code), ("error", .str "Forbidden")]⟩
  else
    ⟨false, "API test failed for " ++ provider,
     [("status_code", .num status_code), ("error", .str text)]⟩

/-- The body of the `try` block of `test_api_key` (lines 23-120): dispatch on
the provider, raising `HTTPException(400, f"Unsupported provider: ...")` at
line 94 for an unrecognized one; otherwise the classification of the
outcome of the single awaited call, with the two `httpx` exceptions
propagating out of the block. -/
def tryBody (req : TestApiKeyRequest) (outcome : Outcome) :
    Except PyExc TestApiKeyResponse :=
  match buildProbe req.provider req.apiKey with
  | some _ =>
    match outcome with
    | .response status text => .ok (classify req.provider status text)
    | .timeout => .error .timeoutExc
    | .requestError m => .error (.requestError m)
  | none => .error (.httpException ⟨400, "Unsupported provider: " ++ req.provider⟩)

/-- The `except` chain of `test_api_key` (lines 122-138), in source order:
`httpx.TimeoutException` (line 122) and `httpx.RequestError` (line 128) are
converted to structured 200 responses; every other exception — including
the `HTTPException(400)` raised inside the `try` block, since fastapi's
`HTTPException` subclasses `Exception` — falls to the catch-all at line 134
and is re-raised as `HTTPException(500, f"Unexpected error testing API key:
{str(e)}")`. -/
def runHandlers (provider : String) (x : Except PyExc TestApiKeyResponse) :
    Except HTTPExceptionModel TestApiKeyResponse :=
  match x with
  | .ok r => .ok r
  | .error .timeoutExc =>
    .ok ⟨false, "Timeout testing " ++ provider ++ " API key",
         [("error", .str "Request timeout")]⟩
  | .error (.requestError m) =>
    .ok ⟨false, "Network error testing " ++ provider ++ " API key",
         [("error", .str m)]⟩
  | .error e =>
    .error ⟨500, "Unexpected error testing API key: " ++ pyExcStr e⟩

/-- The route handler `test_api_key` (lines 19-138): an `.ok` value is a 200
response with a `TestApiKeyResponse` body; an `.error` value is an
`HTTPException` propagating to the framework, which answers with its status
code. -/
def test_api_key (req : TestApiKeyRequest) (outcome : Outcome) :
    Except HTTPExceptionModel TestApiKeyResponse :=
  runHandlers req.provider (tryBody req outcome)

/-- The outbound HTTP requests issued by one call of `test_api_key`: each
recognized branch of the dispatch awaits exactly one `client.get` /
`client.post` (lines 34, 51, 62, 72, 79, 88), the unrecognized branch
raises before any call, and no branch contains a loop or a second call, so
the trace does not depend on the outcome. -/
def test_api_key_requests (req : TestApiKeyRequest) (_outcome : Outcome) :
    List HttpRequest :=
  match buildProbe req.provider req.apiKey with
  | some probe => [probe]
  | none => []

/-- One entry of the GET /api/api-key-status response (lines 147-152). -/
structure ProviderStatusEntry where
  configured : Bool
  required : Bool
deriving DecidableEq, Repr

/-- The names bound at module level in `api_keys.py`: the imports at
lines 1-5 bind `APIRouter`, `HTTPException`, `BaseModel`, `httpx`, `Dict`,
`Any` and `asyncio`, and the module body binds `router`, the two model
classes and the two route handlers.  The file has no `import os`. -/
def module_level_names : List String :=
  ["APIRouter", "HTTPException", "BaseModel", "httpx", "Dict", "Any",
   "asyncio", "router", "TestApiKeyRequest", "TestApiKeyResponse",
   "test_api_key", "get_api_key_status"]

/-- Python `bool(os.getenv(name))`: `os.getenv` returns `None` when the
variable is unset, and `bool` is `False` exactly on `None` and the empty
string. -/
def envNonEmpty (env : String → Option String) (name : String) : Bool :=
  match env name with
  | none => false
  | some v => !(v = "")

/-- The route handler `get_api_key_status` (lines 140-153) over a process
environment `env`.  Its body evaluates `os.getenv(...)`, but `os` is not
among the module-level names (there is no `import os` in the file), so the
first evaluation raises `NameError: name 'os' is not defined`; the handler
has no `try`, so the exception escapes to the framework (a 500).  The `.ok`
branch is the dict literal of lines 146-153, reachable only if `os` were
bound. -/
def get_api_key_status (env : String → Option String) :
    Except PyExc (List (String × ProviderStatusEntry)) :=
  if module_level_names.contains "os" then
    .ok [("openai", ⟨envNonEmpty env "OPENAI_API_KEY", true⟩),
         ("anthropic", ⟨envNonEmpty env "ANTHROPIC_API_KEY", false⟩),
         ("groq", ⟨envNonEmpty env "GROQ_API_KEY", false⟩),
         ("deepseek", ⟨envNonEmpty env "DEEPSEEK_API_KEY", false⟩),
         ("google", ⟨envNonEmpty env "GOOGLE_API_KEY", false⟩),
         ("financial", ⟨envNonEmpty env "FINANCIAL_DATASETS_API_KEY", false⟩)]
  else
    .error (.nameError "os")

/-- Does the key `"error"` occur in a `details` association list? -/
def detailsHasErrorKey (d : List (String × DetailVal)) : Bool :=
  d.any (fun kv => kv.1 == "error")

/-- Does the character list `s` contain `pat` as a contiguous sublist? -/
def strHasSubList : List Char → List Char → Bool
  | _, [] => true
  | [], _ :: _ => false
  | c :: rest, p :: ps =>
    List.isPrefixOf (p :: ps) (c :: rest) || strHasSubList rest (p :: ps)

/-- Does the string `s` contain `pat` as a contiguous substring? -/
def strContainsSub (s pat : String) : Bool :=
  strHasSubList s.data pat.data

/-- Does a `details` value mention `pat` verbatim? -/
def detailValMentions (pat : String) : DetailVal → Bool
  | .num _ => false
  | .str s => strContainsSub s pat

/-- Does a `TestApiKeyResponse` mention `pat` verbatim in its `message` or in
some `details` value? -/
def responseMentions (r : TestApiKeyResponse) (pat : String) : Bool :=
  strContainsSub r.message pat || r.details.any (fun kv => detailValMentions pat kv.2)

/-- Characters of `cs` strictly before the first occurrence of `sep`. -/
def takeUntilChar (sep : Char) : List Char → List Char
  | [] => []
  | c :: cs => if c = sep then [] else c :: takeUntilChar sep cs

/-- Characters of `cs` strictly after the first occurrence of `sep`, or
`none` when `sep` does not occur. -/
def dropThroughChar (sep : Char) : List Char → Option (List Char)
  | [] => none
  | c :: cs => if c = sep then some cs else dropThroughChar sep cs

/-- Split `cs` at every occurrence of `sep` (separators not kept). -/
def splitOnChar (sep : Char) : List Char → List (List Char)
  | [] => [[]]
  | c :: cs =>
    if c = sep then
      [] :: splitOnChar sep cs
    else
      match splitOnChar sep cs with
      | [] => [[c]]
      | x :: xs => (c :: x) :: xs

/-- The query component of a URL under the generic URI syntax: the fragment
begins at the first `#`, and the query is everything after the first `?`
that precedes it.  Used to state how the URL the google branch builds is
read by the upstream server. -/
def urlQueryChars (url : String) : List Char :=
  match dropThroughChar '?' (takeUntilChar '#' url.data) with
  | none => []
  | some q => q

/-- One `name=value` query parameter: the name is the text before the first
`=` of the piece, the value the text after it (empty when no `=`). -/
def paramOfChars (piece : List Char) : String × String :=
  match dropThroughChar '=' piece with
  | none => (String.mk piece, "")
  | some v => (String.mk (takeUntilChar '=' piece), String.mk v)

/-- The `name=value` query parameters of a URL, splitting the query
component at `&`, in order. -/
def queryParamsOfUrl (url : String) : List (String × String) :=
  match urlQueryChars url with
  | [] => []
  | q => (splitOnChar '&' q).map paramOfChars

/-- Spec §4.1 table, method column: POST for anthropic, GET for the other
five providers. -/
def spec_method (p : String) : Method :=
  if p = "anthropic" then .POST else .GET

/-- Spec §4.1 table, URL column (for google the key is embedded in the
query string). -/
def spec_url (p key : String) : String :=
  if p = "openai" then "https://api.openai.com/v1/models"
  else if p = "anthropic" then "https://api.anthropic.com/v1/messages"
  else if p = "groq" then "https://api.groq.com/openai/v1/models"
  else if p = "deepseek" then "https://api.deepseek.com/v1/models"
  else if p = "google" then
    "https://generativelanguage.googleapis.com/v1beta/models?key=" ++ key
  else "https://api.financialdatasets.ai/company/facts/?ticker=AAPL"

/-- Spec §4.1 table, auth-mechanism column: the auth headers each probe must
carry (none for google, whose key travels in the query string). -/
def spec_auth_headers (p key : String) : List (String × String) :=
  if p = "openai" || p = "groq" || p = "deepseek" then
    [("Authorization", "Bearer " ++ key)]
  else if p = "anthropic" then
    [("x-api-key", key), ("anthropic-version", "2023-06-01")]
  else if p = "google" then []
  else [("X-API-KEY", key)]

/-- Spec §4.1 table, body column for anthropic:
`{model: "claude-3-haiku-20240307", max_tokens: 1,
messages: [{role: "user", content: "Hi"}]}`. -/
def spec_anthropic_body : JsonVal :=
  .obj [("model", .str "claude-3-haiku-20240307"),
        ("max_tokens", .num 1),
        ("messages", .arr [.obj [("role", .str "user"), ("content", .str "Hi")]])]

/-- Spec §4.1 table, body column: the fixed anthropic body, none elsewhere. -/
def spec_body (p : String) : Option JsonVal :=
  if p = "anthropic" then some spec_anthropic_body else none

/-- Spec §4.1 response classification, as written in the spec's four
bullets, applied to the status code and raw body text of the probe
response. -/
def spec_response_classification (p : String) (status : Nat) (text : String) :
    TestApiKeyResponse :=
  if status = 200 then
    ⟨true, pyTitle p ++ " API key is valid", [("status_code", .num status)]⟩
  else if status = 401 then
    ⟨false, "Invalid API key for " ++ p,
     [("status_code", .num status), ("error", .str "Unauthorized")]⟩
  else if status = 403 then
    ⟨false, "API key lacks required permissions for " ++ p,
     [("status_code", .num status), ("error", .str "Forbidden")]⟩
  else
    ⟨false, "API test failed for " ++ p,
     [("status_code", .num status), ("error", .str text)]⟩

/-! Helper lemmas shared by the claim theorems. -/

/-- A recognized provider is one of the six identifiers of the dispatch
chain. -/
theorem recognized_cases (p : String) (h : recognizedProvider p = true) :
    p = "openai" ∨ p = "anthropic" ∨ p = "groq" ∨ p = "deepseek" ∨
    p = "google" ∨ p = "financial" := by
  have h2 := h
  simp [recognizedProvider] at h2
  tauto

/-- For a recognized provider the dispatch builds a probe request. -/
theorem buildProbe_recognized (p k : String) (h : recognizedProvider p = true) :
    ∃ probe, buildProbe p k = some probe := by
  rcases recognized_cases p h with h | h | h | h | h | h <;> subst h <;> exact ⟨_, rfl⟩

/-- Whether the dispatch builds a probe does not depend on the key. -/
theorem buildProbe_none_congr (p k₁ k₂ : String) :
    buildProbe p k₁ = none ↔ buildProbe p k₂ = none := by
  unfold buildProbe
  split_ifs <;> simp

/-- C1: the claim says an unrecognized provider is rejected with a
400-equivalent client error.  In the code the `HTTPException(400, ...)`
raised at line 94 sits inside the `try` block, so the catch-all
`except Exception` at line 134 intercepts it and re-raises it as an
`HTTPException(500, "Unexpected error testing API key: 400: Unsupported
provider: ...")`: the request is indeed rejected (never a 200 response or a
`ProbeResult`) and the message still carries the provider string, but the
status is 500, not 400. -/
theorem C1_unrecognized_provider_rejected_as_500 :
    ∀ (key ep : String) (o : Outcome),
      test_api_key ⟨"bogus", key, ep⟩ o =
        .error ⟨500,
          "Unexpected error testing API key: 400: Unsupported provider: bogus"⟩ := by
  intro key ep o
  have h1 : tryBody ⟨"bogus", key, ep⟩ o =
      .error (.httpException ⟨400, "Unsupported provider: bogus"⟩) := by
    cases o <;> rfl
  show runHandlers "bogus" (tryBody ⟨"bogus", key, ep⟩ o) = _
  rw [h1]
  rfl

/-- C2: the claim says `get_api_key_status` returns, with status 200, the
six-provider configured/required mapping.  The code evaluates
`os.getenv(...)` at line 147, but the module never imports `os` (imports at
lines 1-5 bind only fastapi, pydantic, httpx, typing and asyncio names), so
for every process environment the handler raises
`NameError: name 'os' is not defined`, which escapes as a 500 — the mapping
is never returned. -/
theorem C2_get_api_key_status_raises_name_error :
    ∀ env : String → Option String,
      get_api_key_status env = .error (.nameError "os") := by
  intro env
  rfl

/-- C5: the probe client is configured with a 10-second total-wait timeout
(line 24), and a timeout while awaiting the probe is caught at line 122 and
converted to the structured result
`{success: false, message: "Timeout testing <provider> API key",
details: {error: "Request timeout"}}`, returned as a normal 200 response
(`.ok`), never as a protocol-level failure. -/
theorem C5_timeout_is_structured_200 :
    client_timeout_seconds = 10 ∧
    ∀ req : TestApiKeyRequest, recognizedProvider req.provider = true →
      test_api_key req .timeout =
        .ok ⟨false, "Timeout testing " ++ req.provider ++ " API key",
             [("error", .str "Request timeout")]⟩ := by
  refine ⟨rfl, ?_⟩
  intro req h
  obtain ⟨probe, hp⟩ := buildProbe_recognized req.provider req.apiKey h
  simp [test_api_key, tryBody, hp, runHandlers]

/-- Witness for C5 at provider `openai`. -/
theorem C5_timeout_witness :
    test_api_key ⟨"openai", "k", ""⟩ .timeout =
      .ok ⟨false, "Timeout testing openai API key",
           [("error", .str "Request timeout")]⟩ :=
  C5_timeout_is_structured_200.2 ⟨"openai", "k", ""⟩ rfl

/-- C6: for a recognized provider, a non-timeout network-level fault
(`httpx.RequestError`, caught at line 128) yields
`{success: false, message: "Network error testing <provider> API key",
details: {error: <fault description>}}`, and every anticipated outcome of
the probe call — any response status, a timeout, a network fault — is
converted to a structured `.ok` result, never escaping as an unhandled
fault. -/
theorem C6_network_fault_structured_and_total :
    ∀ (req : TestApiKeyRequest) (o : Outcome),
      recognizedProvider req.provider = true →
      (∀ m, o = .requestError m →
        test_api_key req o =
          .ok ⟨false, "Network error testing " ++ req.provider ++ " API key",
               [("error", .str m)]⟩) ∧
      ∃ r, test_api_key req o = .ok r := by
  intro req o h
  obtain ⟨probe, hp⟩ := buildProbe_recognized req.provider req.apiKey h
  constructor
  · rintro m rfl
    simp [test_api_key, tryBody, hp, runHandlers]
  · cases o with
    | response s t =>
      exact ⟨classify req.provider s t, by simp [test_api_key, tryBody, hp, runHandlers]⟩
    | timeout =>
      exact ⟨⟨false, "Timeout testing " ++ req.provider ++ " API key",
              [("error", .str "Request timeout")]⟩,
             by simp [test_api_key, tryBody, hp, runHandlers]⟩
    | requestError m =>
      exact ⟨⟨false, "Network error testing " ++ req.provider ++ " API key",
              [("error", .str m)]⟩,
             by simp [test_api_key, tryBody, hp, runHandlers]⟩

/-- Witness for C6 at provider `openai` with a connection fault. -/
theorem C6_network_fault_witness :
    test_api_key ⟨"openai", "k", ""⟩ (.requestError "Connection refused") =
      .ok ⟨false, "Network error testing openai API key",
           [("error", .str "Connection refused")]⟩ :=
  (C6_network_fault_structured_and_total ⟨"openai", "k", ""⟩
      (.requestError "Connection refused") rfl).1 "Connection refused" rfl

/-- C4: for every recognized provider and every status of the single probe
response, `test_api_key` returns exactly the classification of the spec's
§4.1 table — 200: success with the title-cased provider in the message and
`{status_code}` details; 401: failure with `details.error = "Unauthorized"`;
403: failure with `details.error = "Forbidden"`; any other status: failure
with message `API test failed for <provider>` and `details.error` the raw
response body text. -/
theorem C4_classification_matches_spec :
    ∀ (p key ep : String) (status : Nat) (text : String),
      recognizedProvider p = true →
      test_api_key ⟨p, key, ep⟩ (.response status text) =
        .ok (spec_response_classification p status text) := by
  intro p key ep status text h
  obtain ⟨probe, hp⟩ := buildProbe_recognized p key h
  simp [test_api_key, tryBody, hp, runHandlers]
  rfl

/-- Witness for C4: the spec's concrete scenario — provider `openai`, a
stub upstream answering 200. -/
theorem C4_classification_witness :
    test_api_key ⟨"openai", "sk-test", ""⟩ (.response 200 "") =
      .ok ⟨true, "Openai API key is valid", [("status_code", .num 200)]⟩ := by
  have h := C4_classification_matches_spec "openai" "sk-test" "" 200 "" rfl
  rw [h]
  rfl

/-- C7: for each of the six recognized providers, the constructed probe has
exactly the method, URL and body of the spec's §4.1 table, and exactly the
table's auth headers (the source adds only a non-auth `Content-Type`
header for openai, anthropic, groq and deepseek). -/
theorem C7_probe_construction_matches_table :
    ∀ (p key : String), recognizedProvider p = true →
      ∃ probe, buildProbe p key = some probe ∧
        probe.method = spec_method p ∧
        probe.url = spec_url p key ∧
        probe.headers.filter (fun hd => hd.1 != "Content-Type") =
          spec_auth_headers p key ∧
        probe.body = spec_body p := by
  intro p key h
  rcases recognized_cases p h with h | h | h | h | h | h <;> subst h <;>
    exact ⟨_, rfl, rfl, rfl, rfl, rfl⟩

/-- Witness for C7 at provider `openai`. -/
theorem C7_probe_construction_witness :
    ∃ probe, buildProbe "openai" "k" = some probe ∧
      probe.method = spec_method "openai" ∧
      probe.url = spec_url "openai" "k" ∧
      probe.headers.filter (fun hd => hd.1 != "Content-Type") =
        spec_auth_headers "openai" "k" ∧
      probe.body = spec_body "openai" :=
  C7_probe_construction_matches_table "openai" "k" rfl

/-- C8: a call of `test_api_key` never issues more than one outbound HTTP
request, and for a recognized provider it issues exactly one, whatever the
outcome — there is no retry path in the handler. -/
theorem C8_exactly_one_outbound_request :
    ∀ (req : TestApiKeyRequest) (o : Outcome),
      (test_api_key_requests req o).length ≤ 1 ∧
      (recognizedProvider req.provider = true →
        (test_api_key_requests req o).length = 1) := by
  intro req o
  constructor
  · unfold test_api_key_requests
    cases buildProbe req.provider req.apiKey <;> simp
  · intro h
    obtain ⟨probe, hp⟩ := buildProbe_recognized req.provider req.apiKey h
    unfold test_api_key_requests
    rw [hp]
    rfl

/-- Witness for C8 at provider `openai`. -/
theorem C8_one_request_witness :
    (test_api_key_requests ⟨"openai", "k", ""⟩ .timeout).length = 1 :=
  (C8_exactly_one_outbound_request ⟨"openai", "k", ""⟩ .timeout).2 rfl

/-- C10: every `TestApiKeyResponse` the handler returns satisfies
`success = true` iff its `details` has no `"error"` key, and a success
result's `details` is exactly the singleton `{status_code}`. -/
theorem C10_success_iff_no_error_key :
    ∀ (req : TestApiKeyRequest) (o : Outcome) (r : TestApiKeyResponse),
      test_api_key req o = .ok r →
        (r.success = true ↔ detailsHasErrorKey r.details = false) ∧
        (r.success = true → ∃ code, r.details = [("status_code", .num code)]) := by
  intro req o r h
  unfold test_api_key tryBody at h
  cases hb : buildProbe req.provider req.apiKey with
  | none =>
    rw [hb] at h
    simp [runHandlers] at h
  | some probe =>
    rw [hb] at h
    cases o with
    | response s t =>
      simp [runHandlers] at h
      subst h
      unfold classify
      split_ifs <;> refine ⟨?_, ?_⟩ <;> simp [detailsHasErrorKey]
    | timeout =>
      simp [runHandlers] at h
      subst h
      refine ⟨?_, ?_⟩ <;> simp [detailsHasErrorKey]
    | requestError m =>
      simp [runHandlers] at h
      subst h
      refine ⟨?_, ?_⟩ <;> simp [detailsHasErrorKey]

/-- Witness for C10: a 200 probe response for `openai`. -/
theorem C10_witness :
    ((⟨true, "Openai API key is valid",
       [("status_code", .num 200)]⟩ : TestApiKeyResponse).success = true ↔
      detailsHasErrorKey [("status_code", .num 200)] = false) ∧
    ((⟨true, "Openai API key is valid",
       [("status_code", .num 200)]⟩ : TestApiKeyResponse).success = true →
      ∃ code, [(("status_code" : String), DetailVal.num 200)] =
        [("status_code", .num code)]) :=
  C10_success_iff_no_error_key ⟨"openai", "k", ""⟩ (.response 200 "ok")
    ⟨true, "Openai API key is valid", [("status_code", .num 200)]⟩ rfl

/-- C3 counterexample: the claim says the submitted `apiKey` never appears
verbatim in the returned result's `message` or `details`.  But for any
non-200/401/403 status the handler copies the raw upstream body text into
`details.error` (line 119), so an outcome whose body text echoes the key —
here a 503 whose body quotes the google key it was given — produces a
`ProbeResult` that contains the key verbatim. -/
theorem C3_counterexample_upstream_echoes_key :
    test_api_key ⟨"google", "sk-secret", ""⟩
        (.response 503 "quota exceeded for key sk-secret") =
      .ok ⟨false, "API test failed for google",
           [("status_code", .num 503),
            ("error", .str "quota exceeded for key sk-secret")]⟩ ∧
    responseMentions
      ⟨false, "API test failed for google",
       [("status_code", .num 503),
        ("error", .str "quota exceeded for key sk-secret")]⟩ "sk-secret" = true := by
  constructor
  · show runHandlers "google" _ = _
    rw [show tryBody ⟨"google", "sk-secret", ""⟩
          (.response 503 "quota exceeded for key sk-secret") =
        .ok ⟨false, "API test failed for google",
             [("status_code", .num 503),
              ("error", .str "quota exceeded for key sk-secret")]⟩ from rfl]
    rfl
  · rfl

/-- C3 amended: the handler itself never interpolates the `apiKey` into the
result — the returned value is completely independent of the submitted
key (it depends only on the provider string and the outcome of the HTTP
exchange), so the key can appear in `message` or `details` only when
upstream-supplied data (response body text, fault description) or the
provider string happens to contain it. -/
theorem C3_amended_result_independent_of_apiKey :
    ∀ (p k₁ k₂ e₁ e₂ : String) (o : Outcome),
      test_api_key ⟨p, k₁, e₁⟩ o = test_api_key ⟨p, k₂, e₂⟩ o := by
  intro p k₁ k₂ e₁ e₂ o
  show runHandlers p (tryBody ⟨p, k₁, e₁⟩ o) = runHandlers p (tryBody ⟨p, k₂, e₂⟩ o)
  have hsame : tryBody ⟨p, k₁, e₁⟩ o = tryBody ⟨p, k₂, e₂⟩ o := by
    simp only [tryBody]
    cases hb₁ : buildProbe p k₁ with
    | none =>
      rw [(buildProbe_none_congr p k₁ k₂).mp hb₁]
    | some probe₁ =>
      cases hb₂ : buildProbe p k₂ with
      | none =>
        rw [(buildProbe_none_congr p k₂ k₁).mp hb₂] at hb₁
        exact absurd hb₁ (by simp)
      | some probe₂ => cases o <;> rfl
  rw [hsame]

/-- C9: the google branch embeds the key into the URL by plain string
interpolation with no percent-encoding and sends no headers; read under
the generic URI syntax, a key containing `&` produces two query parameters
instead of a single `key=<apiKey>` one, and a key containing `#` is
truncated at the fragment delimiter. -/
theorem C9_google_key_raw_interpolation :
    (∀ key : String, buildProbe "google" key =
      some ⟨.GET,
            "https://generativelanguage.googleapis.com/v1beta/models?key=" ++ key,
            [], none⟩) ∧
    (buildProbe "google" "a&b=c").map (fun pr => queryParamsOfUrl pr.url) =
      some [("key", "a"), ("b", "c")] ∧
    [(("key" : String), ("a&b=c" : String))] ≠ [("key", "a"), ("b", "c")] ∧
    (buildProbe "google" "sec#frag").map (fun pr => queryParamsOfUrl pr.url) =
      some [("key", "sec")] := by
  refine ⟨fun key => rfl, ?_, ?_, ?_⟩
  · rfl
  · decide
  · rfl

end ApiKeys
